import Mathlib

/-!
Verification of the batch orchestration engine of `batch_download.py`
(ARKitScenes batch downloader).

The Python module is shallowly embedded: every function that the claims
mention is translated into a pure Lean function.  Disk state that the
Python code reads (directory existence, per-directory file counts, the
integrity of zip archives, the metadata catalog) is made an explicit
value of type `SceneDisk` / `Catalog`; external collaborators invoked by
`process_single_scene` (the per-asset download subprocess, the recursive
directory removal, the clean-and-subsample step) are represented by
oracle fields of `SceneEnv` recording the outcome the collaborator would
produce, exactly as the spec treats them (boundary contracts only).
Python exceptions are modelled with `Except String`: a collaborator that
may raise is given an `Option String` field that, when `some e`, makes
the corresponding call site raise `e`.
-/

/-- On-disk state of one scene directory, as read by
`validate_scene_download` and `should_skip_scene`:
whether the scene directory exists, which asset subdirectories exist,
how many `*.png` respectively `*.pincam` files each subdirectory holds,
and the names of zip archives in the scene directory that fail the
`zipfile` integrity self-test. -/
structure SceneDisk where
  sceneExists : Bool
  dirExists : String → Bool
  pngCount : String → Nat
  pincamCount : String → Nat
  corruptZipNames : List String

/-- The metadata catalog `raw/metadata.csv`: either the file is absent,
or it exists but cannot be parsed, or it parses to rows mapping a
video id to the textual `is_in_upsampling` column. -/
inductive Catalog where
  | absent : Catalog
  | unparsable : Catalog
  | table : List (String × String) → Catalog
deriving DecidableEq

/-- Python `str.lower()`, as character-wise lowering (the catalog
column only ever holds ASCII `True` / `False` values). -/
def lowerString (s : String) : String := String.mk (s.data.map Char.toLower)

/-- `has_highres_depth_available` (batch_download.py, lines 745-764):
returns `True` when the catalog file does not exist; on a parse failure
returns `False`; otherwise returns the lowered `is_in_upsampling` value
of the first row whose video id matches, and `False` when no row
matches. -/
def has_highres_depth_available (video_id : String) (c : Catalog) : Bool :=
  match c with
  | Catalog.absent => true
  | Catalog.unparsable => false
  | Catalog.table rows =>
    match rows.find? (fun r => r.1 == video_id) with
    | some r => lowerString r.2 == "true"
    | none => false

/-- The three asset directories always required by
`validate_scene_download`. -/
def requiredDirs : List String := ["highres_depth", "ultrawide", "ultrawide_intrinsics"]

/-- The directory-valued asset names `validate_scene_download` is
willing to add to its expectation table. -/
def knownDirAssets : List String :=
  ["confidence", "highres_depth", "ultrawide", "ultrawide_intrinsics",
   "vga_wide", "vga_wide_intrinsics"]

/-- The keys of the `expected_items` dict built by
`validate_scene_download`: the three required directories, followed by
any further requested assets drawn from the known list, in request
order, without duplicates (dict-key semantics). -/
def expectedItems (assets : List String) : List String :=
  assets.foldl
    (fun acc a => if acc.contains a then acc else if knownDirAssets.contains a then acc ++ [a] else acc)
    requiredDirs

/-- The string `f"{item} (only {k} files)"` recorded for a directory
that exists but holds fewer than the minimum number of files. -/
def fewFilesNote (item : String) (k : Nat) : String :=
  item ++ " (only " ++ toString k ++ " files)"

/-- The entry `validate_scene_download` appends to `missing_files` for
one expected item: the bare item name when the directory is absent, the
annotated name when it is present but under-populated (fewer than 10
files of the globbed extension), nothing otherwise.  Only the two image
directories are counted by `*.png` and the intrinsics directory by
`*.pincam`; other known assets are only checked for existence. -/
def missingEntry (d : SceneDisk) (item : String) : Option String :=
  if !(d.dirExists item) then some item
  else if item == "highres_depth" || item == "ultrawide" then
    if d.pngCount item < 10 then some (fewFilesNote item (d.pngCount item)) else none
  else if item == "ultrawide_intrinsics" then
    if d.pincamCount item < 10 then some (fewFilesNote item (d.pincamCount item)) else none
  else none

/-- The status and details returned by `validate_scene_download`. -/
structure VResult where
  status : String
  missing : List String
  corrupted : List String
deriving DecidableEq

/-- `validate_scene_download` (lines 279-350): collects missing or
under-populated expected directories and corrupted zip archives, then
classifies the scene as `corrupted`, `missing_intrinsics` (the only
missing entry is the intrinsics directory while the depth and wide
directories exist), `missing_other`, or `complete`. -/
def validate_scene_download (d : SceneDisk) (assets : List String) : VResult :=
  let missing := (expectedItems assets).filterMap (missingEntry d)
  let corrupted := d.corruptZipNames
  if !corrupted.isEmpty then ⟨"corrupted", missing, corrupted⟩
  else if !missing.isEmpty then
    if d.dirExists ("highres_depth") && d.dirExists ("ultrawide")
        && missing.contains ("ultrawide_intrinsics") && missing.length == 1 then
      ⟨"missing_intrinsics", missing, corrupted⟩
    else ⟨"missing_other", missing, corrupted⟩
  else ⟨"complete", missing, corrupted⟩

/-- Python `", ".join`. -/
def joinComma : List String → String
  | [] => ""
  | [x] => x
  | x :: xs => x ++ ", " ++ joinComma xs

/-- The subsampling-completeness loop of `should_skip_scene`
(lines 392-406): the first of the three kept directories that exists
and still holds more than 1000 files of its globbed extension. -/
def oversizeDir (d : SceneDisk) : Option String :=
  requiredDirs.findSome? (fun nm =>
    if d.dirExists nm then
      if (if nm == "ultrawide_intrinsics" then d.pincamCount nm else d.pngCount nm) > 1000 then
        some nm
      else none
    else none)

/-- `should_skip_scene` (lines 353-408): the pure classification of one
scene from the catalog and its on-disk state, returning the
`(action, reason)` pair of the Python function. -/
def should_skip_scene (cat : Catalog) (d : SceneDisk) (video_id : String)
    (assets : List String) (subsample_n : Nat) : String × String :=
  if assets.contains ("highres_depth") && !(has_highres_depth_available video_id cat) then
    if d.sceneExists then
      ("remove", "Scene doesn\x27t have highres_depth available - will be removed")
    else
      ("skip_no_highres", "Scene doesn\x27t have highres_depth available")
  else if !d.sceneExists then ("process", "Scene directory doesn\x27t exist")
  else
    let v := validate_scene_download d assets
    if v.status == "corrupted" then ("process", "Corrupted files: " ++ joinComma v.corrupted)
    else if v.status == "missing_intrinsics" then
      ("redownload", "Has depth/wide but missing intrinsics - will redownload")
    else if v.status == "missing_other" then
      if assets.contains ("highres_depth") && v.missing.contains ("highres_depth") then
        ("remove", "Scene missing required highres_depth - will be removed")
      else ("process", "Missing: " ++ joinComma v.missing)
    else
      if subsample_n > 1 then
        match oversizeDir d with
        | some nm => ("process", "Subsampling not applied to " ++ nm)
        | none => ("skip", "Scene is complete")
      else ("skip", "Scene is complete")

/-- The result dictionary produced by `process_single_scene` and
consumed by `ProgressTracker.update`. -/
structure Result where
  video_id : String
  success : Bool
  error : Option String
  phase : String
  reason : Option String
deriving DecidableEq

/-- One entry of the `failed_processing` list.  The Python code stores
the formatted string `f"{video_id} ({phase})"` for the tagged phases
and the bare video id otherwise, and later recovers the id with
`item.split(' ')[0]`; the entry is modelled structurally as the id plus
the optional tag, which is the same data for space-free video ids. -/
structure FailEntry where
  vid : String
  tag : Option String
deriving DecidableEq

/-- The mutable counters of `ProgressTracker` that `update` touches. -/
structure Stats where
  completed : Nat
  success_count : Nat
  skipped_count : Nat
  failed_downloads : List String
  failed_processing : List FailEntry
  successful_scenes : List (String × String)
deriving DecidableEq

/-- Fresh tracker state. -/
def initStats : Stats := ⟨0, 0, 0, [], [], []⟩

/-- The phases `ProgressTracker.update` counts as skipped successes. -/
def skippedPhases : List String := ["skipped", "skipped_no_highres", "removed_no_highres"]

/-- The failure phases `ProgressTracker.update` records in
`failed_processing` together with their phase tag. -/
def taggedFailPhases : List String :=
  ["removed", "removed_missing_intrinsics", "redownload_failed", "removal_failed"]

/-- Python truthiness of the `split` argument of
`ProgressTracker.update` (`if split:`): present and non-empty. -/
def splitTruthy : Option String → Bool
  | none => false
  | some s => !(s == "")

/-- The split hint as the stored string (empty when absent). -/
def orEmpty : Option String → String
  | none => ""
  | some s => s

/-- `ProgressTracker.update` (lines 118-151), the pure state transition
on the counters (the lock, timestamps and logging are operational
concerns outside the counters). -/
def update (s : Stats) (r : Result) (split : Option String) : Stats :=
  let s1 : Stats := { s with completed := s.completed + 1 }
  if r.success then
    if skippedPhases.contains r.phase then
      { s1 with skipped_count := s1.skipped_count + 1 }
    else
      let s2 : Stats := { s1 with success_count := s1.success_count + 1 }
      if splitTruthy split then
        { s2 with successful_scenes := s2.successful_scenes ++ [(r.video_id, orEmpty split)] }
      else s2
  else
    if taggedFailPhases.contains r.phase then
      { s1 with failed_processing := s1.failed_processing ++ [⟨r.video_id, some r.phase⟩] }
    else if r.phase == "download" then
      { s1 with failed_downloads := s1.failed_downloads ++ [r.video_id] }
    else
      { s1 with failed_processing := s1.failed_processing ++ [⟨r.video_id, none⟩] }

/-- Aggregating one wave of results (with their split hints) through
`ProgressTracker.update`, starting from a fresh tracker. -/
def runWave (rs : List (Result × Option String)) : Stats :=
  rs.foldl (fun s p => update s p.1 p.2) initStats

/-- The per-result contribution to `failed_downloads`. -/
def fdContrib (r : Result) : Option String :=
  if !r.success && r.phase == "download" then some r.video_id else none

/-- The per-result contribution to `failed_processing`. -/
def fpContrib (r : Result) : Option FailEntry :=
  if r.success then none
  else if taggedFailPhases.contains r.phase then some ⟨r.video_id, some r.phase⟩
  else if r.phase == "download" then none
  else some ⟨r.video_id, none⟩

/-- The per-result contribution to `successful_scenes`. -/
def ssContrib (r : Result) (split : Option String) : Option (String × String) :=
  if r.success && !(skippedPhases.contains r.phase) && splitTruthy split then
    some (r.video_id, orEmpty split)
  else none

/-- The bucket invariant of the tracker: every completed scene sits in
exactly one of the four buckets. -/
def statsInv (s : Stats) : Prop :=
  s.completed = s.success_count + s.skipped_count
    + s.failed_downloads.length + s.failed_processing.length

/-- The per-scene worker arguments tuple of `process_single_scene`
(the `download_dir` path and the `quiet` flag only influence paths and
printing and are absorbed into the environment). -/
structure TaskArgs where
  video_id : String
  split : String
  assets : List String
  subsample_n : Nat
  execute : Bool
  skip_download : Bool
  force_reprocess : Bool
  redownload_attempt : Nat
deriving DecidableEq

/-- The environment one `process_single_scene` invocation runs in: the
catalog and disk state its classification reads, the per-asset outcome
of the external download collaborator, the outcome of the directory
removal collaborator, the disk state seen by the post-redownload
integrity check, and the outcome of the clean-and-subsample step.
The classification call and the clean step read the file system and
can raise in Python; a raised message is modelled by the `Option
String` exception fields (`run_download` and `remove_scene_directory`
catch internally and cannot raise). -/
structure SceneEnv where
  catalog : Catalog
  disk : SceneDisk
  download : String → Bool
  removeOK : Bool
  diskPost : SceneDisk
  cleanOK : Bool
  classifyExc : Option String
  cleanExc : Option String

/-- `run_download` (lines 549-592): one invocation of the download
collaborator per requested asset, succeeding only when all assets
succeed (`all(results)`); per-asset exceptions and timeouts are caught
inside and count as failure. -/
def run_download (env : SceneEnv) (assets : List String) : Bool :=
  assets.all env.download

/-- The skip-check stage of `process_single_scene` (lines 422-483):
when neither `force_reprocess` nor a remediation attempt applies, run
the classifier and either return a terminal result (`skipped`,
`skipped_no_highres`, `removed_no_highres` / `removal_failed`) or fall
through (`redownload`, `process`); the duplicated `remove` branch of
the Python code is unreachable and therefore absent. -/
def skipStage (env : SceneEnv) (a : TaskArgs) : Except String (Option Result) :=
  if !a.force_reprocess && a.redownload_attempt == 0 then
    match env.classifyExc with
    | some e => Except.error e
    | none =>
      let ar := should_skip_scene env.catalog env.disk a.video_id a.assets a.subsample_n
      if ar.1 == "skip" then
        Except.ok (some ⟨a.video_id, true, none, "skipped", some ar.2⟩)
      else if ar.1 == "skip_no_highres" then
        Except.ok (some ⟨a.video_id, true, none, "skipped_no_highres", some ar.2⟩)
      else if ar.1 == "remove" then
        if env.removeOK then
          Except.ok (some ⟨a.video_id, true, none, "removed_no_highres", some ar.2⟩)
        else
          Except.ok (some ⟨a.video_id, false, some ("Failed to remove scene directory"),
            "removal_failed", none⟩)
      else Except.ok none
  else Except.ok none

/-- The download stage of `process_single_scene` (lines 485-521): run
unless `skip_download` holds on attempt 0; on failure the terminal
phase is `download` (attempt 0) or `redownload_failed` (attempt > 0);
after a successful download on a remediation attempt, re-validate and
flag `removed_missing_intrinsics` when intrinsics are still missing. -/
def downloadStage (env : SceneEnv) (a : TaskArgs) : Option Result :=
  if !a.skip_download || a.redownload_attempt > 0 then
    if !(run_download env a.assets) then
      if a.redownload_attempt > 0 then
        some ⟨a.video_id, false, some ("Redownload failed - scene not removed"),
          "redownload_failed", none⟩
      else
        some ⟨a.video_id, false, some ("Download failed"), "download", none⟩
    else if a.redownload_attempt > 0
        && (validate_scene_download env.diskPost a.assets).status == "missing_intrinsics" then
      some ⟨a.video_id, false,
        some ("Scene has missing intrinsics after redownload - not removed"),
        "removed_missing_intrinsics", none⟩
    else none
  else none

/-- The processing stage of `process_single_scene` (lines 523-538):
the clean-and-subsample collaborator, terminal phase `processing` on
failure, `completed` on success. -/
def cleanStage (env : SceneEnv) (a : TaskArgs) : Except String Result :=
  match env.cleanExc with
  | some e => Except.error e
  | none =>
    if env.cleanOK then Except.ok ⟨a.video_id, true, none, "completed", none⟩
    else Except.ok ⟨a.video_id, false, some ("Processing failed"), "processing", none⟩

/-- The body of `process_single_scene` inside its `try`. -/
def processBody (env : SceneEnv) (a : TaskArgs) : Except String Result :=
  match skipStage env a with
  | Except.error e => Except.error e
  | Except.ok (some r) => Except.ok r
  | Except.ok none =>
    match downloadStage env a with
    | some r => Except.ok r
    | none => cleanStage env a

/-- `process_single_scene` (lines 411-546): the body wrapped in the
outer exception boundary that converts any raised exception into a
`success=false` result with phase `exception`. -/
def process_single_scene (env : SceneEnv) (a : TaskArgs) : Result :=
  match processBody env a with
  | Except.ok r => r
  | Except.error e => ⟨a.video_id, false, some e, "exception", none⟩

/-- A disk state with every directory present and well-populated. -/
def diskComplete : SceneDisk := ⟨true, fun _ => true, fun _ => 20, fun _ => 20, []⟩

/-- A disk state for a scene directory that does not exist. -/
def diskAbsentScene : SceneDisk := ⟨false, fun _ => false, fun _ => 0, fun _ => 0, []⟩

/-- A disk state whose only missing directory is the intrinsics one. -/
def diskNoIntrinsics : SceneDisk :=
  ⟨true, fun s => !(s == "ultrawide_intrinsics"), fun _ => 20, fun _ => 20, []⟩

/-- An environment whose classification call raises. -/
def envRaise : SceneEnv :=
  { catalog := Catalog.absent
    disk := diskAbsentScene
    download := fun _ => true
    removeOK := true
    diskPost := diskComplete
    cleanOK := true
    classifyExc := some ("boom")
    cleanExc := none }

/-- An environment in which every download attempt fails. -/
def envNoDownload : SceneEnv :=
  { catalog := Catalog.absent
    disk := diskAbsentScene
    download := fun _ => false
    removeOK := true
    diskPost := diskComplete
    cleanOK := true
    classifyExc := none
    cleanExc := none }

/-- A scene key: `(video_id, split)`. -/
structure SceneKey where
  video_id : String
  split : String
deriving DecidableEq

/-- The run-level configuration of `main` (scene list and the CLI
flags that reach `process_single_scene`). -/
structure RunConfig where
  scenes : List SceneKey
  assets : List String
  subsample_n : Nat
  execute : Bool
  skip_download : Bool
  force_reprocess : Bool

/-- The environment of a whole `main` run without interruption: the
per-scene execution environment of each wave (disk evolves between
waves, so each wave has its own), the per-scene answer of
`check_scene_subfolders_empty` after the main waves and again after the
empty-directory redownload, the scene-directory presence before the run
and after each wave's executor ran for that scene (executor-internal
creations and removals are part of the collaborator outcome), and the
success of the two `remove_scene_directory` cleanup calls `main` itself
makes. -/
structure RunEnv where
  envMain : String → SceneEnv
  envRetry : String → SceneEnv
  envRepair : String → SceneEnv
  envEmpty : String → SceneEnv
  emptyDirsMain : SceneKey → List String
  emptyDirsFinal : SceneKey → List String
  presence0 : SceneKey → Bool
  presMain : SceneKey → Bool
  presRetry : SceneKey → Bool
  presRepair : SceneKey → Bool
  presEmpty : SceneKey → Bool
  removeOKRetryCleanup : SceneKey → Bool
  removeOKEmptyCleanup : SceneKey → Bool

/-- Worker arguments of the main wave (line 929-932):
`redownload_attempt = 0`. -/
def mainArgs (cfg : RunConfig) (k : SceneKey) : TaskArgs :=
  ⟨k.video_id, k.split, cfg.assets, cfg.subsample_n, cfg.execute,
    cfg.skip_download, cfg.force_reprocess, 0⟩

/-- Worker arguments of the download-retry wave (line 1043-1046):
`skip_download = False`, `force_reprocess = True`,
`redownload_attempt = 1`. -/
def retryArgs (cfg : RunConfig) (k : SceneKey) : TaskArgs :=
  ⟨k.video_id, k.split, cfg.assets, cfg.subsample_n, cfg.execute, false, true, 1⟩

/-- Worker arguments of the intrinsics-repair wave (line 1108-1112):
`skip_download = False`, the configured `force_reprocess`,
`redownload_attempt = 1`. -/
def repairArgs (cfg : RunConfig) (k : SceneKey) : TaskArgs :=
  ⟨k.video_id, k.split, cfg.assets, cfg.subsample_n, cfg.execute, false,
    cfg.force_reprocess, 1⟩

/-- Worker arguments of the empty-directory-repair wave
(line 1183-1187): `skip_download = False`, `force_reprocess = True`,
`redownload_attempt = 2`. -/
def emptyArgs (cfg : RunConfig) (k : SceneKey) : TaskArgs :=
  ⟨k.video_id, k.split, cfg.assets, cfg.subsample_n, cfg.execute, false, true, 2⟩

/-- The main-wave result of one scene. -/
def mainResult (R : RunEnv) (cfg : RunConfig) (k : SceneKey) : Result :=
  process_single_scene (R.envMain k.video_id) (mainArgs cfg k)

/-- The retry-wave result of one scene. -/
def retryResult (R : RunEnv) (cfg : RunConfig) (k : SceneKey) : Result :=
  process_single_scene (R.envRetry k.video_id) (retryArgs cfg k)

/-- The repair-wave result of one scene. -/
def repairResult (R : RunEnv) (cfg : RunConfig) (k : SceneKey) : Result :=
  process_single_scene (R.envRepair k.video_id) (repairArgs cfg k)

/-- The empty-directory-wave result of one scene. -/
def emptyResult (R : RunEnv) (cfg : RunConfig) (k : SceneKey) : Result :=
  process_single_scene (R.envEmpty k.video_id) (emptyArgs cfg k)

/-- The main wave tracker after all scenes completed (results are
reported to the tracker with the scene split as hint; membership in
the bucket lists does not depend on completion order). -/
def mainStats (R : RunEnv) (cfg : RunConfig) : Stats :=
  runWave (cfg.scenes.map (fun k => (mainResult R cfg k, some k.split)))

/-- `failed_scenes` (lines 1024-1031): for each recorded failed
download, the first scene of the task list with that video id. -/
def failedScenes (R : RunEnv) (cfg : RunConfig) : List SceneKey :=
  (mainStats R cfg).failed_downloads.filterMap
    (fun vid => cfg.scenes.find? (fun k => k.video_id == vid))

/-- The retry-wave tracker. -/
def retryStats (R : RunEnv) (cfg : RunConfig) : Stats :=
  runWave ((failedScenes R cfg).map (fun k => (retryResult R cfg k, some k.split)))

/-- `permanently_failed` (line 1086): retry-wave failed downloads plus
the video ids recovered from the retry-wave failed-processing entries
(`item.split(' ')[0]`; video ids contain no spaces). -/
def permanentlyFailed (R : RunEnv) (cfg : RunConfig) : List String :=
  (retryStats R cfg).failed_downloads ++ (retryStats R cfg).failed_processing.map (·.vid)

/-- `scenes_needing_redownload` (lines 946-952 and 986-992): the scenes
whose MAIN-wave result carries phase `removed_missing_intrinsics`; this
is the entire task list of the intrinsics-repair wave (results of the
retry wave are never inspected for this phase). -/
def scenesNeedingRedownload (R : RunEnv) (cfg : RunConfig) : List SceneKey :=
  cfg.scenes.filter (fun k => (mainResult R cfg k).phase == "removed_missing_intrinsics")

/-- The candidate scenes of the empty-directory check (lines 1167-1176):
every scene the MAIN tracker recorded as successful whose directory now
has some required subdirectory empty. -/
def scenesWithEmptyDirs (R : RunEnv) (cfg : RunConfig) : List SceneKey :=
  (mainStats R cfg).successful_scenes.filterMap
    (fun p => if (R.emptyDirsMain ⟨p.1, p.2⟩).isEmpty then none else some ⟨p.1, p.2⟩)

/-- The empty-directory-wave tracker. -/
def emptyStats (R : RunEnv) (cfg : RunConfig) : Stats :=
  runWave ((scenesWithEmptyDirs R cfg).map (fun k => (emptyResult R cfg k, some k.split)))

/-- `still_empty` (lines 1227-1238): empty-directory candidates whose
forced redownload was not recorded successful, or whose directories are
still empty afterwards. -/
def stillEmpty (R : RunEnv) (cfg : RunConfig) : List SceneKey :=
  (scenesWithEmptyDirs R cfg).filter (fun k =>
    if (emptyStats R cfg).successful_scenes.contains (k.video_id, k.split) then
      !(R.emptyDirsFinal k).isEmpty
    else true)

/-- Whether a scene directory is present once the run has completed:
the presence evolves through the main executor, the retry executor,
the retry-failure cleanup (lines 1088-1096), the intrinsics-repair
executor, the empty-directory executor, and the final still-empty
cleanup (lines 1240-1244); a successful cleanup removal makes the
directory absent. -/
def finalPresence (R : RunEnv) (cfg : RunConfig) (k : SceneKey) : Bool :=
  let p0 := if k ∈ cfg.scenes then R.presMain k else R.presence0 k
  let p1 := if k ∈ failedScenes R cfg then R.presRetry k else p0
  let p2 := if k.video_id ∈ permanentlyFailed R cfg ∧ k ∈ failedScenes R cfg then
      (if R.removeOKRetryCleanup k then false else p1)
    else p1
  let p3 := if k ∈ scenesNeedingRedownload R cfg then R.presRepair k else p2
  let p4 := if k ∈ scenesWithEmptyDirs R cfg then R.presEmpty k else p3
  let p5 := if k ∈ stillEmpty R cfg then
      (if R.removeOKEmptyCleanup k then false else p4)
    else p4
  p5

/-- An environment in which every collaborator succeeds and the scene
is freshly absent on disk. -/
def envAllOK : SceneEnv :=
  { catalog := Catalog.absent
    disk := diskAbsentScene
    download := fun _ => true
    removeOK := true
    diskPost := diskComplete
    cleanOK := true
    classifyExc := none
    cleanExc := none }

/-- An environment whose (re)download succeeds but leaves the
intrinsics directory missing. -/
def envRetryIntr : SceneEnv :=
  { catalog := Catalog.absent
    disk := diskAbsentScene
    download := fun _ => true
    removeOK := true
    diskPost := diskNoIntrinsics
    cleanOK := true
    classifyExc := none
    cleanExc := none }

/-- The single scene of the concrete runs below. -/
def sceneK42 : SceneKey := ⟨"42", "Training"⟩

/-- A single-scene configuration. -/
def cfgOne : RunConfig := ⟨[sceneK42], requiredDirs, 10, true, false, false⟩

/-- A single-scene configuration with forced reprocessing. -/
def cfgOneForce : RunConfig := ⟨[sceneK42], requiredDirs, 10, true, false, true⟩

/-- A run in which the scene fails its main-wave download and its
retry-wave redownload succeeds but still lacks intrinsics. -/
def runFlagged : RunEnv :=
  { envMain := fun _ => envNoDownload
    envRetry := fun _ => envRetryIntr
    envRepair := fun _ => envAllOK
    envEmpty := fun _ => envAllOK
    emptyDirsMain := fun _ => []
    emptyDirsFinal := fun _ => []
    presence0 := fun _ => false
    presMain := fun _ => true
    presRetry := fun _ => true
    presRepair := fun _ => true
    presEmpty := fun _ => true
    removeOKRetryCleanup := fun _ => true
    removeOKEmptyCleanup := fun _ => true }

/-- A run in which the scene fails both its main-wave download and its
retry-wave download. -/
def runBothFail : RunEnv :=
  { envMain := fun _ => envNoDownload
    envRetry := fun _ => envNoDownload
    envRepair := fun _ => envAllOK
    envEmpty := fun _ => envAllOK
    emptyDirsMain := fun _ => []
    emptyDirsFinal := fun _ => []
    presence0 := fun _ => false
    presMain := fun _ => true
    presRetry := fun _ => true
    presRepair := fun _ => true
    presEmpty := fun _ => true
    removeOKRetryCleanup := fun _ => true
    removeOKEmptyCleanup := fun _ => true }

/-- A run in which the scene completes its main wave, is then found
with an empty required directory, and fails the forced redownload of
the empty-directory-repair wave. -/
def runEmptyFail : RunEnv :=
  { envMain := fun _ => envAllOK
    envRetry := fun _ => envAllOK
    envRepair := fun _ => envAllOK
    envEmpty := fun _ => envNoDownload
    emptyDirsMain := fun _ => ["ultrawide"]
    emptyDirsFinal := fun _ => ["ultrawide"]
    presence0 := fun _ => false
    presMain := fun _ => true
    presRetry := fun _ => true
    presRepair := fun _ => true
    presEmpty := fun _ => true
    removeOKRetryCleanup := fun _ => true
    removeOKEmptyCleanup := fun _ => true }

/-- Python list slice `files[::n]` for a positive step `n`: the first
element, then every further element whose index is a multiple of
`n`. -/
def everyNth {α : Type} (n : Nat) : List α → List α
  | [] => []
  | x :: xs => x :: everyNth n (xs.drop (n - 1))
termination_by l => l.length
decreasing_by
  simp [List.length_drop]
  omega

/-- Insertion into an ascending list of names. -/
def insertSorted (x : String) : List String → List String
  | [] => [x]
  | y :: ys => if x ≤ y then x :: y :: ys else y :: insertSorted x ys

/-- Python `sorted` on file names (ascending name order; file names in
one directory are distinct, so any correct sort yields the same
list). -/
def sortNames : List String → List String
  | [] => []
  | x :: xs => insertSorted x (sortNames xs)

/-- `files_to_keep = files[::subsample_n]` of `subsample_scene_files`
(lines 619-622), computed on the name-sorted listing. -/
def filesToKeep (n : Nat) (l : List String) : List String := everyNth n (sortNames l)

/-- `files_to_remove` (line 623): the sorted files not in the keep
list. -/
def filesToRemove (n : Nat) (l : List String) : List String :=
  (sortNames l).filter (fun f => !(filesToKeep n l).contains f)

/-- The directory listing after `subsample_scene_files` processed one
directory (lines 629-633): in execute mode the files in
`files_to_remove` are unlinked, otherwise nothing changes. -/
def afterSubsample (n : Nat) (execute : Bool) (l : List String) : List String :=
  if execute then l.filter (fun f => !(filesToRemove n l).contains f) else l

/-- The index set a factor-`n` subsample retains out of `m` files. -/
def retainedIndices (n m : Nat) : List Nat :=
  (List.range m).filter (fun i => i % n == 0)

/-- A file of a scene subdirectory, split into `pathlib` stem and
suffix (`name = stem ++ "." ++ ext`). -/
structure SFile where
  stem : String
  ext : String
deriving DecidableEq

/-- A scene directory tree: the subdirectories with their files. -/
structure SceneFS where
  dirs : List (String × List SFile)
deriving DecidableEq

/-- The `keep_dirs` set of `clean_scene_directories` (line 660). -/
def keepDirs : List String := ["highres_depth", "ultrawide", "ultrawide_intrinsics"]

/-- The glob extension of a kept directory. -/
def extFor (nm : String) : String :=
  if nm == "ultrawide_intrinsics" then "pincam" else "png"

/-- Whether a subdirectory exists in the tree. -/
def fsDirExists (fs : SceneFS) (nm : String) : Bool :=
  fs.dirs.any (fun d => d.1 == nm)

/-- The files of a subdirectory (empty when absent). -/
def fsFiles (fs : SceneFS) (nm : String) : List SFile :=
  match fs.dirs.find? (fun d => d.1 == nm) with
  | some d => d.2
  | none => []

/-- The stems one kept directory contributes, globbed by its
extension (line 684-692). -/
def dirStems (fs : SceneFS) (nm : String) : List String :=
  ((fsFiles fs nm).filter (fun f => f.ext == extFor nm)).map SFile.stem

/-- Whether a stem belongs to the intersection of the three kept
directories' stem sets (line 695). -/
def commonStem (fs : SceneFS) (st : String) : Bool :=
  (dirStems fs ("highres_depth")).contains st
    && (dirStems fs ("ultrawide")).contains st
    && (dirStems fs ("ultrawide_intrinsics")).contains st

/-- `clean_scene_directories` (lines 655-723) as a transformer of the
scene tree, returning the new tree and the boolean result: remove the
non-kept directories (execute mode only); fail when a kept directory is
absent; otherwise remove from each kept directory every file whose stem
is not common to all three (execute mode only). -/
def clean_scene_directories (fs : SceneFS) (execute : Bool) : SceneFS × Bool :=
  let fs1 : SceneFS :=
    if execute then ⟨fs.dirs.filter (fun d => keepDirs.contains d.1)⟩ else fs
  let missing := keepDirs.filter (fun nm => !(fsDirExists fs1 nm))
  if !missing.isEmpty then (fs1, false)
  else
    let fs2 : SceneFS :=
      if execute then
        ⟨fs1.dirs.map (fun d =>
          if keepDirs.contains d.1 then
            (d.1, d.2.filter (fun f => commonStem fs1 f.stem))
          else d)⟩
      else fs1
    (fs2, true)

/-- Insertion into a list of files ascending by stem. -/
def insertSFile (x : SFile) : List SFile → List SFile
  | [] => [x]
  | y :: ys => if x.stem ≤ y.stem then x :: y :: ys else y :: insertSFile x ys

/-- Python `sorted` on the globbed files of one directory (for a fixed
extension, name order and stem order coincide on extension-free
stems). -/
def sortSFiles : List SFile → List SFile
  | [] => []
  | x :: xs => insertSFile x (sortSFiles xs)

/-- One directory pass of `subsample_scene_files`: sort the globbed
files, keep every `n`-th, unlink the rest (execute mode only). -/
def subsampleFSDir (n : Nat) (execute : Bool) (ext : String) (files : List SFile) :
    List SFile :=
  let chosen := sortSFiles (files.filter (fun f => f.ext == ext))
  let toKeep := everyNth n chosen
  let toRemove := chosen.filter (fun f => !toKeep.contains f)
  if execute then files.filter (fun f => !toRemove.contains f) else files

/-- `subsample_scene_files` (lines 608-652) as a transformer: subsample
the two image directories, then the intrinsics directory when `n > 1`;
the function always reports success. -/
def subsample_scene_files (fs : SceneFS) (n : Nat) (execute : Bool) : SceneFS × Bool :=
  let fs1 : SceneFS := ⟨fs.dirs.map (fun d =>
    if d.1 == "highres_depth" || d.1 == "ultrawide" then
      (d.1, subsampleFSDir n execute ("png") d.2)
    else d)⟩
  let fs2 : SceneFS := ⟨fs1.dirs.map (fun d =>
    if d.1 == "ultrawide_intrinsics" && decide (n > 1) then
      (d.1, subsampleFSDir n execute ("pincam") d.2)
    else d)⟩
  (fs2, true)

-- ### THEOREMS ###

/-- The three required directories are always expected items. -/
theorem requiredDirs_subset_expectedItems (assets : List String) :
    ∀ x ∈ requiredDirs, x ∈ expectedItems assets := by
  intro x hx
  unfold expectedItems
  have h : ∀ (l : List String) (init : List String), x ∈ init →
      x ∈ l.foldl (fun acc a =>
        if acc.contains a then acc else if knownDirAssets.contains a then acc ++ [a] else acc) init := by
    intro l
    induction l with
    | nil => intro init h; simpa using h
    | cons a l ih =>
      intro init h
      simp only [List.foldl_cons]
      apply ih
      split
      · exact h
      · split
        · exact List.mem_append_left _ h
        · exact h
  exact h assets requiredDirs hx

/-- The expected-item list never contains duplicates (dict-key
semantics). -/
theorem expectedItems_nodup (assets : List String) : (expectedItems assets).Nodup := by
  unfold expectedItems
  have h : ∀ (l : List String) (init : List String), init.Nodup →
      (l.foldl (fun acc a =>
        if acc.contains a then acc else if knownDirAssets.contains a then acc ++ [a] else acc)
        init).Nodup := by
    intro l
    induction l with
    | nil => intro init h; simpa using h
    | cons a l ih =>
      intro init h
      simp only [List.foldl_cons]
      apply ih
      split
      · exact h
      · split
        · rename_i hmem _
          have hna : a ∉ init := by
            simp only [Bool.not_eq_true] at hmem
            simpa using hmem
          simp [List.nodup_append, h, hna]
        · exact h
  exact h assets requiredDirs (by decide)

/-- A `filterMap` whose function hits exactly one element of a
duplicate-free list yields exactly that image. -/
theorem filterMap_eq_single {α β : Type} (f : α → Option β) (l : List α)
    (hnd : l.Nodup) (a : α) (ha : a ∈ l) (v : β) (hfa : f a = some v)
    (hother : ∀ x ∈ l, x ≠ a → f x = none) : l.filterMap f = [v] := by
  induction l with
  | nil => cases ha
  | cons y ys ih =>
    rcases List.mem_cons.mp ha with h | h
    · subst h
      have hys : ys.filterMap f = [] := by
        rw [List.filterMap_eq_nil_iff]
        intro x hx
        apply hother x (List.mem_cons_of_mem _ hx)
        intro he
        subst he
        exact (List.nodup_cons.mp hnd).1 hx
      simp [List.filterMap_cons, hfa, hys]
    · have hya : y ≠ a := fun he => (List.nodup_cons.mp hnd).1 (he ▸ h)
      have hy : f y = none := hother y (List.mem_cons_self _ _) hya
      simp only [List.filterMap_cons, hy]
      exact ih (List.nodup_cons.mp hnd).2 h
        (fun x hx hxa => hother x (List.mem_cons_of_mem _ hx) hxa)

/-- An expected item with no missing-file entry has an existing
directory. -/
theorem missingEntry_none_dirExists (d : SceneDisk) (item : String)
    (h : missingEntry d item = none) : d.dirExists item = true := by
  unfold missingEntry at h
  by_cases hd : d.dirExists item
  · exact hd
  · simp [hd] at h

/-- Claim C2 (amended): for a scene whose local directory exists, whose
catalog eligibility is not refused (the catalog is absent, depth is not
requested, or the scene is marked in-upsampling), whose zip archives
are intact, whose intrinsics directory is the only absent expected
directory, and whose remaining expected directories all pass the
validation file-count minimum, `should_skip_scene` returns the action
`redownload`, never `remove`. -/
theorem c2_missing_intrinsics_redownloads (cat : Catalog) (d : SceneDisk) (vid : String)
    (assets : List String) (n : Nat)
    (helig : assets.contains ("highres_depth") = true →
      has_highres_depth_available vid cat = true)
    (hex : d.sceneExists = true)
    (hnozip : d.corruptZipNames = [])
    (hintr : d.dirExists ("ultrawide_intrinsics") = false)
    (hothers : ∀ item ∈ expectedItems assets, item ≠ "ultrawide_intrinsics" →
      missingEntry d item = none) :
    should_skip_scene cat d vid assets n =
      ("redownload", "Has depth/wide but missing intrinsics - will redownload") := by
  have hguard : (assets.contains ("highres_depth") && !(has_highres_depth_available vid cat)) = false := by
    cases hc : assets.contains ("highres_depth")
    · simp
    · simp [helig hc]
  have hui : "ultrawide_intrinsics" ∈ expectedItems assets :=
    requiredDirs_subset_expectedItems assets ("ultrawide_intrinsics") (by decide)
  have hmiss : (expectedItems assets).filterMap (missingEntry d) = ["ultrawide_intrinsics"] := by
    apply filterMap_eq_single _ _ (expectedItems_nodup assets) _ hui
    · simp [missingEntry, hintr]
    · exact hothers
  have hhd : d.dirExists ("highres_depth") = true := by
    apply missingEntry_none_dirExists
    exact hothers _ (requiredDirs_subset_expectedItems assets _ (by decide)) (by decide)
  have hwd : d.dirExists ("ultrawide") = true := by
    apply missingEntry_none_dirExists
    exact hothers _ (requiredDirs_subset_expectedItems assets _ (by decide)) (by decide)
  have hv : validate_scene_download d assets =
      ⟨"missing_intrinsics", ["ultrawide_intrinsics"], []⟩ := by
    unfold validate_scene_download
    rw [hmiss, hnozip]
    simp [hhd, hwd]
  unfold should_skip_scene
  rw [hguard, hv]
  simp [hex]

/-- Claim C2, counterexample to the claim as stated: with the claimed
hypotheses alone (scene directory exists, depth and wide directories
present, no corrupt zips, intrinsics the only missing directory) the
classifier can still answer `remove` (when the catalog refuses
eligibility) or `process` (when a present directory is
under-populated), so the claimed `redownload` outcome fails. -/
theorem c2_counterexample :
    (should_skip_scene (Catalog.table [("9", "false")])
      { sceneExists := true
        dirExists := fun s => !(s == "ultrawide_intrinsics")
        pngCount := fun _ => 20
        pincamCount := fun _ => 20
        corruptZipNames := [] }
      "9" ["highres_depth", "ultrawide", "ultrawide_intrinsics"] 10).1 = "remove" ∧
    (should_skip_scene Catalog.absent
      { sceneExists := true
        dirExists := fun s => !(s == "ultrawide_intrinsics")
        pngCount := fun s => if s == "highres_depth" then 5 else 20
        pincamCount := fun _ => 20
        corruptZipNames := [] }
      "9" ["highres_depth", "ultrawide", "ultrawide_intrinsics"] 10).1 = "process" := by
  constructor
  · decide
  · decide

/-- Claim C2, witness. -/
theorem c2_witness :
    should_skip_scene Catalog.absent
      { sceneExists := true
        dirExists := fun s => !(s == "ultrawide_intrinsics")
        pngCount := fun _ => 20
        pincamCount := fun _ => 20
        corruptZipNames := [] }
      "9" ["highres_depth", "ultrawide", "ultrawide_intrinsics"] 10 =
      ("redownload", "Has depth/wide but missing intrinsics - will redownload") := by
  apply c2_missing_intrinsics_redownloads
  · intro _
    rfl
  · rfl
  · rfl
  · rfl
  · decide

/-- Claim C3 (amended): for a scene whose catalog eligibility is not
refused, whose local copy exists and is structurally complete
(validation reports `complete`, which already entails no corrupt zips
and sufficient file counts), and which has no directory above the
oversize threshold, `should_skip_scene` answers `skip`; and, the
classification being a pure function of the given disk state, calling
it twice with the same arguments and no disk mutation in between yields
identical results. -/
theorem c3_complete_scene_skips (cat : Catalog) (d : SceneDisk) (vid : String)
    (assets : List String) (n : Nat)
    (helig : assets.contains ("highres_depth") = true →
      has_highres_depth_available vid cat = true)
    (hex : d.sceneExists = true)
    (hcomplete : (validate_scene_download d assets).status = "complete")
    (hover : oversizeDir d = none) :
    should_skip_scene cat d vid assets n = ("skip", "Scene is complete") ∧
    should_skip_scene cat d vid assets n = should_skip_scene cat d vid assets n := by
  refine ⟨?_, rfl⟩
  have hguard : (assets.contains ("highres_depth") && !(has_highres_depth_available vid cat)) = false := by
    cases hc : assets.contains ("highres_depth")
    · simp
    · simp [helig hc]
  unfold should_skip_scene
  rw [hguard]
  simp only [Bool.false_eq_true, if_false, hex, Bool.not_true]
  rw [hcomplete, hover]
  simp

/-- Claim C3, counterexample to the claim as stated: a structurally
complete local copy with no corrupt zips and no oversized directory
still classifies as `remove`, not `skip`, when the requested assets
include the depth asset and the catalog marks the scene ineligible. -/
theorem c3_counterexample :
    (validate_scene_download
      { sceneExists := true
        dirExists := fun _ => true
        pngCount := fun _ => 20
        pincamCount := fun _ => 20
        corruptZipNames := [] }
      ["highres_depth", "ultrawide", "ultrawide_intrinsics"]).status = "complete" ∧
    oversizeDir
      { sceneExists := true
        dirExists := fun _ => true
        pngCount := fun _ => 20
        pincamCount := fun _ => 20
        corruptZipNames := [] } = none ∧
    (should_skip_scene (Catalog.table [("7", "false")])
      { sceneExists := true
        dirExists := fun _ => true
        pngCount := fun _ => 20
        pincamCount := fun _ => 20
        corruptZipNames := [] }
      "7" ["highres_depth", "ultrawide", "ultrawide_intrinsics"] 10).1 = "remove" := by
  refine ⟨by decide, by decide, by decide⟩

/-- Claim C3, witness. -/
theorem c3_witness :
    should_skip_scene Catalog.absent
      { sceneExists := true
        dirExists := fun _ => true
        pngCount := fun _ => 20
        pincamCount := fun _ => 20
        corruptZipNames := [] }
      "7" ["highres_depth", "ultrawide", "ultrawide_intrinsics"] 10 =
      ("skip", "Scene is complete") :=
  (c3_complete_scene_skips Catalog.absent _ ("7") _ 10 (fun _ => rfl) rfl (by decide)
    (by decide)).1

/-- Claim C10: `has_highres_depth_available` is `True` for every video
id when the catalog file is absent, `False` when the id is missing from
an existing catalog, and `False` when the catalog cannot be parsed;
consequently, with no catalog on disk, classification step 1 of
`should_skip_scene` can never answer `skip_no_highres`, nor `remove`
with the step-1 reason (the only other `remove` exit carries a
different reason). -/
theorem c10_no_catalog_assumes_available (vid : String) (rows : List (String × String))
    (d : SceneDisk) (assets : List String) (n : Nat)
    (habsent : rows.find? (fun r => r.1 == vid) = none) :
    has_highres_depth_available vid Catalog.absent = true ∧
    has_highres_depth_available vid (Catalog.table rows) = false ∧
    has_highres_depth_available vid Catalog.unparsable = false ∧
    (should_skip_scene Catalog.absent d vid assets n).1 ≠ "skip_no_highres" ∧
    should_skip_scene Catalog.absent d vid assets n ≠
      ("remove", "Scene doesn\x27t have highres_depth available - will be removed") := by
  have h2 : has_highres_depth_available vid (Catalog.table rows) = false := by
    simp [has_highres_depth_available, habsent]
  have hguard : (assets.contains ("highres_depth")
      && !(has_highres_depth_available vid Catalog.absent)) = false := by
    simp [has_highres_depth_available]
  refine ⟨rfl, h2, rfl, ?_, ?_⟩
  · unfold should_skip_scene
    rw [hguard]
    simp only [Bool.false_eq_true, if_false]
    repeat' split
    all_goals simp
  · unfold should_skip_scene
    rw [hguard]
    simp only [Bool.false_eq_true, if_false]
    repeat' split
    all_goals simp

/-- Claim C10, witness. -/
theorem c10_witness :
    has_highres_depth_available ("2") (Catalog.table [("1", "true")]) = false ∧
    (should_skip_scene Catalog.absent
      { sceneExists := true
        dirExists := fun _ => true
        pngCount := fun _ => 20
        pincamCount := fun _ => 20
        corruptZipNames := [] }
      "2" ["highres_depth"] 10).1 ≠ "skip_no_highres" := by
  have h := c10_no_catalog_assumes_available ("2") [("1", "true")]
    { sceneExists := true
      dirExists := fun _ => true
      pngCount := fun _ => 20
      pincamCount := fun _ => 20
      corruptZipNames := [] }
    ["highres_depth"] 10 (by decide)
  exact ⟨h.2.1, h.2.2.2.1⟩

/-- Full characterization of one `ProgressTracker.update` step. -/
theorem update_eq (s : Stats) (r : Result) (sp : Option String) :
    update s r sp =
      { completed := s.completed + 1
        success_count := s.success_count
          + (if r.success && !(skippedPhases.contains r.phase) then 1 else 0)
        skipped_count := s.skipped_count
          + (if r.success && skippedPhases.contains r.phase then 1 else 0)
        failed_downloads := s.failed_downloads ++ (fdContrib r).toList
        failed_processing := s.failed_processing ++ (fpContrib r).toList
        successful_scenes := s.successful_scenes ++ (ssContrib r sp).toList } := by
  unfold update fdContrib fpContrib ssContrib
  cases hs : r.success
  · by_cases ht : r.phase ∈ taggedFailPhases
    · have hd : r.phase ≠ "download" := fun hcon => absurd (hcon ▸ ht) (by decide)
      simp [ht, hd]
    · by_cases hd : r.phase = "download"
      · have h2 : ¬(("download" : String) ∈ taggedFailPhases) := by decide
        simp [hd, h2]
      · simp [ht, hd]
  · by_cases hp : r.phase ∈ skippedPhases
    · simp [hp]
    · by_cases hsp : splitTruthy sp <;> simp [hp, hsp]

/-- Folding updates accumulates the `failed_downloads` contributions. -/
theorem foldl_update_failed_downloads (rs : List (Result × Option String)) :
    ∀ s : Stats, (rs.foldl (fun s p => update s p.1 p.2) s).failed_downloads
      = s.failed_downloads ++ rs.filterMap (fun p => fdContrib p.1) := by
  induction rs with
  | nil => intro s; simp
  | cons p rs ih =>
    intro s
    simp only [List.foldl_cons, List.filterMap_cons]
    rw [ih, update_eq]
    cases h : fdContrib p.1 <;> simp [h]

/-- Folding updates accumulates the `failed_processing` contributions. -/
theorem foldl_update_failed_processing (rs : List (Result × Option String)) :
    ∀ s : Stats, (rs.foldl (fun s p => update s p.1 p.2) s).failed_processing
      = s.failed_processing ++ rs.filterMap (fun p => fpContrib p.1) := by
  induction rs with
  | nil => intro s; simp
  | cons p rs ih =>
    intro s
    simp only [List.foldl_cons, List.filterMap_cons]
    rw [ih, update_eq]
    cases h : fpContrib p.1 <;> simp [h]

/-- Folding updates accumulates the `successful_scenes` contributions. -/
theorem foldl_update_successful_scenes (rs : List (Result × Option String)) :
    ∀ s : Stats, (rs.foldl (fun s p => update s p.1 p.2) s).successful_scenes
      = s.successful_scenes ++ rs.filterMap (fun p => ssContrib p.1 p.2) := by
  induction rs with
  | nil => intro s; simp
  | cons p rs ih =>
    intro s
    simp only [List.foldl_cons, List.filterMap_cons]
    rw [ih, update_eq]
    cases h : ssContrib p.1 p.2 <;> simp [h]

/-- `runWave` bucket lists, closed forms over a wave of results. -/
theorem runWave_buckets (rs : List (Result × Option String)) :
    (runWave rs).failed_downloads = rs.filterMap (fun p => fdContrib p.1) ∧
    (runWave rs).failed_processing = rs.filterMap (fun p => fpContrib p.1) ∧
    (runWave rs).successful_scenes = rs.filterMap (fun p => ssContrib p.1 p.2) := by
  unfold runWave
  refine ⟨?_, ?_, ?_⟩
  · rw [foldl_update_failed_downloads]; rfl
  · rw [foldl_update_failed_processing]; rfl
  · rw [foldl_update_successful_scenes]; rfl

/-- One update step preserves the bucket invariant. -/
theorem statsInv_update (s : Stats) (r : Result) (sp : Option String)
    (h : statsInv s) : statsInv (update s r sp) := by
  unfold statsInv at h ⊢
  rw [update_eq]
  unfold fdContrib fpContrib
  cases hs : r.success
  · by_cases ht : r.phase ∈ taggedFailPhases
    · have hd : r.phase ≠ "download" := fun hcon => absurd (hcon ▸ ht) (by decide)
      simp [ht, hd, h]
      omega
    · by_cases hd : r.phase = "download"
      · have h2 : ¬(("download" : String) ∈ taggedFailPhases) := by decide
        simp [hd, h2, h]
        omega
      · simp [ht, hd, h]
        omega
  · by_cases hp : r.phase ∈ skippedPhases <;> simp [hp, h] <;> omega

/-- A whole wave satisfies the bucket invariant. -/
theorem statsInv_runWave (rs : List (Result × Option String)) : statsInv (runWave rs) := by
  unfold runWave
  have h : ∀ s : Stats, statsInv s →
      statsInv (rs.foldl (fun s p => update s p.1 p.2) s) := by
    induction rs with
    | nil => intro s hs; simpa using hs
    | cons p rs ih =>
      intro s hs
      simp only [List.foldl_cons]
      exact ih _ (statsInv_update s p.1 p.2 hs)
  exact h initStats (by constructor)

/-- Claim C5: every `ProgressTracker.update` call increments `completed`
by one and touches exactly one bucket according to the phase mapping
(skipped-phases successes count as skipped; other successes count as
succeeded and, under a truthy split hint, are recorded as successful
candidate scenes; `download` failures append to `failed_downloads`;
tagged failures append to `failed_processing` with the phase tag; all
other failures append to `failed_processing` untagged); consequently
`completed` always equals the sum of the four bucket sizes. -/
theorem c5_tracker_update (s : Stats) (r : Result) (sp : Option String)
    (rs : List (Result × Option String)) :
    (update s r sp).completed = s.completed + 1 ∧
    (r.success = true → skippedPhases.contains r.phase = true →
      update s r sp =
        { s with completed := s.completed + 1, skipped_count := s.skipped_count + 1 }) ∧
    (r.success = true → skippedPhases.contains r.phase = false →
      update s r sp =
        { s with
          completed := s.completed + 1
          success_count := s.success_count + 1
          successful_scenes := s.successful_scenes
            ++ (if splitTruthy sp then [(r.video_id, orEmpty sp)] else []) }) ∧
    (r.success = false → r.phase = "download" →
      update s r sp =
        { s with
          completed := s.completed + 1
          failed_downloads := s.failed_downloads ++ [r.video_id] }) ∧
    (r.success = false → taggedFailPhases.contains r.phase = true →
      update s r sp =
        { s with
          completed := s.completed + 1
          failed_processing := s.failed_processing ++ [⟨r.video_id, some r.phase⟩] }) ∧
    (r.success = false → taggedFailPhases.contains r.phase = false → r.phase ≠ "download" →
      update s r sp =
        { s with
          completed := s.completed + 1
          failed_processing := s.failed_processing ++ [⟨r.video_id, none⟩] }) ∧
    (statsInv s → statsInv (update s r sp)) ∧
    statsInv (runWave rs) := by
  refine ⟨by rw [update_eq], ?_, ?_, ?_, ?_, ?_,
    statsInv_update s r sp, statsInv_runWave rs⟩
  · intro hs hp
    have hp' : r.phase ∈ skippedPhases := by simpa using hp
    rw [update_eq]
    simp [fdContrib, fpContrib, ssContrib, hs, hp']
  · intro hs hp
    have hp' : ¬(r.phase ∈ skippedPhases) := by simpa using hp
    rw [update_eq]
    by_cases hsp : splitTruthy sp <;>
      simp [fdContrib, fpContrib, ssContrib, hs, hp', hsp]
  · intro hs hp
    have h2 : ¬(("download" : String) ∈ taggedFailPhases) := by decide
    rw [update_eq]
    simp [fdContrib, fpContrib, ssContrib, hs, hp, h2]
  · intro hs ht
    have ht' : r.phase ∈ taggedFailPhases := by simpa using ht
    have hd : r.phase ≠ "download" := fun hcon => absurd (hcon ▸ ht') (by decide)
    rw [update_eq]
    simp [fdContrib, fpContrib, ssContrib, hs, ht', hd]
  · intro hs ht hd
    have ht' : ¬(r.phase ∈ taggedFailPhases) := by simpa using ht
    rw [update_eq]
    simp [fdContrib, fpContrib, ssContrib, hs, ht', hd]

/-- Claim C5, witness. -/
theorem c5_witness :
    update initStats ⟨"42", true, none, "completed", none⟩ (some ("Training")) =
      { initStats with
        completed := 1
        success_count := 1
        successful_scenes := [("42", "Training")] } := by
  have h := (c5_tracker_update initStats ⟨"42", true, none, "completed", none⟩
    (some ("Training")) []).2.2.1 rfl (by decide)
  simpa using h

/-- Every terminal result of the skip-check stage carries the worker
video id and none of the download-stage phases. -/
theorem skipStage_shape (env : SceneEnv) (a : TaskArgs) (r : Result)
    (h : skipStage env a = Except.ok (some r)) :
    r.video_id = a.video_id ∧ r.phase ≠ "download"
      ∧ r.phase ≠ "removed_missing_intrinsics" := by
  simp only [skipStage] at h
  repeat' split at h
  all_goals (try (injection h with h; try injection h with h; try subst h))
  all_goals simp_all

/-- Every terminal result of the download stage is a failure with one
of the three download phases, and the remediation phases require a
positive attempt counter. -/
theorem downloadStage_shape (env : SceneEnv) (a : TaskArgs) (r : Result)
    (h : downloadStage env a = some r) :
    r.video_id = a.video_id ∧ r.success = false ∧
    (r.phase = "download" ∨ r.phase = "redownload_failed"
      ∨ r.phase = "removed_missing_intrinsics") ∧
    (r.phase = "removed_missing_intrinsics" → 0 < a.redownload_attempt) ∧
    (r.phase = "redownload_failed" → 0 < a.redownload_attempt) := by
  unfold downloadStage at h
  repeat' split at h
  all_goals (try (injection h with h; try subst h))
  all_goals simp_all

/-- Every result of the processing stage carries the worker video id
and none of the download-stage phases. -/
theorem cleanStage_shape (env : SceneEnv) (a : TaskArgs) (r : Result)
    (h : cleanStage env a = Except.ok r) :
    r.video_id = a.video_id ∧ r.phase ≠ "download"
      ∧ r.phase ≠ "removed_missing_intrinsics" := by
  unfold cleanStage at h
  repeat' split at h
  all_goals (try (injection h with h; try subst h))
  all_goals simp_all

/-- Every normally returned result of the `try` body carries the worker
video id; a `download`-phase result is a failure; and the phase
`removed_missing_intrinsics` is only produced on remediation attempts. -/
theorem processBody_shape (env : SceneEnv) (a : TaskArgs) (r : Result)
    (h : processBody env a = Except.ok r) :
    r.video_id = a.video_id ∧
    (r.phase = "download" → r.success = false) ∧
    (a.redownload_attempt = 0 → r.phase ≠ "removed_missing_intrinsics") := by
  unfold processBody at h
  cases hs : skipStage env a with
  | error e => rw [hs] at h; cases h
  | ok o =>
    rw [hs] at h
    cases o with
    | some r0 =>
      simp only [Except.ok.injEq] at h
      subst h
      obtain ⟨h1, h2, h3⟩ := skipStage_shape env a r0 hs
      exact ⟨h1, fun hc => absurd hc h2, fun _ => h3⟩
    | none =>
      cases hd : downloadStage env a with
      | some r0 =>
        rw [hd] at h
        simp only [Except.ok.injEq] at h
        subst h
        obtain ⟨h1, h2, _, h4, _⟩ := downloadStage_shape env a r0 hd
        refine ⟨h1, fun _ => h2, fun h0 hc => ?_⟩
        have := h4 hc
        omega
      | none =>
        rw [hd] at h
        obtain ⟨h1, h2, h3⟩ := cleanStage_shape env a r h
        exact ⟨h1, fun hc => absurd hc h2, fun _ => h3⟩

/-- The result of `process_single_scene` carries the worker video id;
a `download`-phase result is a failure; and the flag phase
`removed_missing_intrinsics` is never produced on attempt 0. -/
theorem process_shape (env : SceneEnv) (a : TaskArgs) :
    (process_single_scene env a).video_id = a.video_id ∧
    ((process_single_scene env a).phase = "download" →
      (process_single_scene env a).success = false) ∧
    (a.redownload_attempt = 0 →
      (process_single_scene env a).phase ≠ "removed_missing_intrinsics") := by
  cases hb : processBody env a with
  | ok r =>
    unfold process_single_scene
    rw [hb]
    exact processBody_shape env a r hb
  | error e =>
    unfold process_single_scene
    rw [hb]
    exact ⟨rfl, by simp, by simp⟩

/-- Claim C8: `process_single_scene` never propagates an exception: a
normally returned body result is passed through unchanged, and any
exception raised inside the body is converted at the outer boundary
into a `success=false` result with phase `exception` carrying the
exception text, so the worker pool only ever sees a `Result`. -/
theorem c8_exception_containment (env : SceneEnv) (a : TaskArgs) :
    (∀ r, processBody env a = Except.ok r → process_single_scene env a = r) ∧
    (∀ e, processBody env a = Except.error e →
      process_single_scene env a = ⟨a.video_id, false, some e, "exception", none⟩) := by
  constructor
  · intro r h
    unfold process_single_scene
    rw [h]
  · intro e h
    unfold process_single_scene
    rw [h]

/-- Claim C8, witness: a raised classification exception is contained
as a phase `exception` failure result. -/
theorem c8_witness :
    process_single_scene envRaise ⟨"5", "Training", requiredDirs, 10, true, false, false, 0⟩ =
      ⟨"5", false, some ("boom"), "exception", none⟩ :=
  (c8_exception_containment envRaise ⟨"5", "Training", requiredDirs, 10, true, false, false, 0⟩).2
    ("boom") rfl

/-- Claim C4: once control reaches the download decision point (the
skip-check stage fell through), the download step is bypassed exactly
when `skip_download` is set on attempt 0 — in that case the result does
not depend on the download collaborator at all; when the step runs it
succeeds exactly when every requested asset download succeeds; and a
failed step terminates with `success=false` and phase `download` on
attempt 0, phase `redownload_failed` on a remediation attempt. -/
theorem c4_download_step (env : SceneEnv) (a : TaskArgs)
    (hreach : skipStage env a = Except.ok none) (hne : a.assets ≠ []) :
    (run_download env a.assets = true ↔ ∀ x ∈ a.assets, env.download x = true) ∧
    (a.skip_download = true → a.redownload_attempt = 0 → ∀ dl : String → Bool,
      process_single_scene { env with download := dl } a = process_single_scene env a) ∧
    (a.skip_download = false → a.redownload_attempt = 0 →
      run_download env a.assets = false →
      process_single_scene env a =
        ⟨a.video_id, false, some ("Download failed"), "download", none⟩) ∧
    (0 < a.redownload_attempt → run_download env a.assets = false →
      process_single_scene env a =
        ⟨a.video_id, false, some ("Redownload failed - scene not removed"),
          "redownload_failed", none⟩) := by
  refine ⟨?_, ?_, ?_, ?_⟩
  · simp [run_download, List.all_eq_true]
  · intro hskip hatt dl
    have h1 : skipStage { env with download := dl } a = Except.ok none := hreach
    have h2 : downloadStage { env with download := dl } a = none := by
      simp [downloadStage, hskip, hatt]
    have h3 : downloadStage env a = none := by
      simp [downloadStage, hskip, hatt]
    unfold process_single_scene processBody
    rw [hreach, h1, h2, h3]
    rfl
  · intro hskip hatt hfail
    unfold process_single_scene processBody
    rw [hreach]
    simp [downloadStage, hskip, hatt, hfail]
  · intro hatt hfail
    unfold process_single_scene processBody
    rw [hreach]
    simp [downloadStage, hatt, hfail]

/-- Claim C4, witness: with a forced-reprocess task on attempt 0 and a
collaborator that fails every asset, the scene terminates with phase
`download`. -/
theorem c4_witness :
    process_single_scene envNoDownload
      ⟨"6", "Training", requiredDirs, 10, true, false, true, 0⟩ =
      ⟨"6", false, some ("Download failed"), "download", none⟩ :=
  (c4_download_step envNoDownload
    ⟨"6", "Training", requiredDirs, 10, true, false, true, 0⟩ rfl (by decide)).2.2.1
    rfl rfl rfl

/-- On a task list with duplicate-free video ids, the lookup loop of
`main` finds exactly the scene itself. -/
theorem find?_video_id_eq (l : List SceneKey) (k : SceneKey)
    (hnd : (l.map SceneKey.video_id).Nodup) (hk : k ∈ l) :
    l.find? (fun x => x.video_id == k.video_id) = some k := by
  induction l with
  | nil => cases hk
  | cons y ys ih =>
    simp only [List.map_cons, List.nodup_cons] at hnd
    rcases List.mem_cons.mp hk with h | h
    · subst h
      simp [List.find?_cons]
    · have hy : (y.video_id == k.video_id) = false := by
        have hm : k.video_id ∈ ys.map SceneKey.video_id := List.mem_map_of_mem _ h
        simp only [beq_eq_false_iff_ne, ne_eq]
        intro he
        exact hnd.1 (he ▸ hm)
      rw [List.find?_cons, hy]
      exact ih hnd.2 h

/-- Unpacking a successful-scene record of a wave: it names a scene of
the wave whose result succeeded, with that result's video id and the
scene split. -/
theorem mem_ss_of_wave (ws : List SceneKey) (resOf : SceneKey → Result)
    (p : String × String)
    (hp : p ∈ (runWave (ws.map (fun k => (resOf k, some k.split)))).successful_scenes) :
    ∃ k ∈ ws, (resOf k).success = true ∧ p.1 = (resOf k).video_id ∧ p.2 = k.split := by
  rw [(runWave_buckets _).2.2, List.filterMap_map] at hp
  obtain ⟨k, hk, hc⟩ := List.mem_filterMap.mp hp
  refine ⟨k, hk, ?_⟩
  unfold Function.comp ssContrib at hc
  beta_reduce at hc
  split at hc
  · rename_i hcond
    injection hc with hc
    rw [← hc]
    simp only [Bool.and_eq_true] at hcond
    exact ⟨hcond.1.1, rfl, rfl⟩
  · cases hc

/-- A successful non-skipped result of a wave scene with a non-empty
split is recorded in the wave tracker's successful scenes. -/
theorem ss_mem_of_wave (ws : List SceneKey) (resOf : SceneKey → Result) (k : SceneKey)
    (hk : k ∈ ws) (hs : (resOf k).success = true)
    (hph : (resOf k).phase ∉ skippedPhases) (hsp : k.split ≠ "") :
    ((resOf k).video_id, k.split) ∈
      (runWave (ws.map (fun k => (resOf k, some k.split)))).successful_scenes := by
  rw [(runWave_buckets _).2.2, List.filterMap_map]
  apply List.mem_filterMap.mpr
  refine ⟨k, hk, ?_⟩
  simp [ssContrib, hs, hph, splitTruthy, hsp, orEmpty]

/-- A scene whose main-wave result is a failed download is recorded in
the main tracker's `failed_downloads` and re-enters via
`failed_scenes`. -/
theorem mem_failedScenes (R : RunEnv) (cfg : RunConfig) (k : SceneKey)
    (hnd : (cfg.scenes.map SceneKey.video_id).Nodup) (hk : k ∈ cfg.scenes)
    (hmain : (mainResult R cfg k).phase = "download") :
    k ∈ failedScenes R cfg := by
  have hsucc : (mainResult R cfg k).success = false :=
    (process_shape (R.envMain k.video_id) (mainArgs cfg k)).2.1 hmain
  have hvid : (mainResult R cfg k).video_id = k.video_id :=
    (process_shape (R.envMain k.video_id) (mainArgs cfg k)).1
  have hfd : k.video_id ∈ (mainStats R cfg).failed_downloads := by
    unfold mainStats
    rw [(runWave_buckets _).1, List.filterMap_map]
    apply List.mem_filterMap.mpr
    refine ⟨k, hk, ?_⟩
    simp [Function.comp, fdContrib, hsucc, hmain, hvid]
  unfold failedScenes
  apply List.mem_filterMap.mpr
  exact ⟨k.video_id, hfd, find?_video_id_eq cfg.scenes k hnd hk⟩

/-- A retry-wave scene whose retry result fails lands in
`permanently_failed`. -/
theorem mem_permanentlyFailed (R : RunEnv) (cfg : RunConfig) (k : SceneKey)
    (hk : k ∈ failedScenes R cfg)
    (hf : (retryResult R cfg k).success = false) :
    k.video_id ∈ permanentlyFailed R cfg := by
  have hvid : (retryResult R cfg k).video_id = k.video_id :=
    (process_shape (R.envRetry k.video_id) (retryArgs cfg k)).1
  unfold permanentlyFailed
  by_cases hph : (retryResult R cfg k).phase = "download"
  · apply List.mem_append_left
    unfold retryStats
    rw [(runWave_buckets _).1, List.filterMap_map]
    apply List.mem_filterMap.mpr
    refine ⟨k, hk, ?_⟩
    simp [Function.comp, fdContrib, hf, hph, hvid]
  · apply List.mem_append_right
    unfold retryStats
    rw [(runWave_buckets _).2.1, List.filterMap_map]
    apply List.mem_map.mpr
    by_cases ht : (retryResult R cfg k).phase ∈ taggedFailPhases
    · refine ⟨⟨k.video_id, some (retryResult R cfg k).phase⟩, ?_, rfl⟩
      apply List.mem_filterMap.mpr
      refine ⟨k, hk, ?_⟩
      simp [Function.comp, fpContrib, hf, ht, hvid]
    · refine ⟨⟨k.video_id, none⟩, ?_, rfl⟩
      apply List.mem_filterMap.mpr
      refine ⟨k, hk, ?_⟩
      simp [Function.comp, fpContrib, hf, ht, hph, hvid]

/-- Unpacking membership in the empty-directory candidate list: the
candidate is a scene of the run whose main result succeeded and whose
directory check found an empty required subdirectory. -/
theorem mem_scenesWithEmptyDirs (R : RunEnv) (cfg : RunConfig) (k : SceneKey)
    (h : k ∈ scenesWithEmptyDirs R cfg) :
    k ∈ cfg.scenes ∧ (mainResult R cfg k).success = true ∧
      (R.emptyDirsMain k).isEmpty = false := by
  unfold scenesWithEmptyDirs at h
  obtain ⟨p, hp, hps⟩ := List.mem_filterMap.mp h
  split at hps
  · cases hps
  · rename_i hne
    injection hps with hps
    obtain ⟨k0, hk0, hsucc, h1, h2⟩ := mem_ss_of_wave cfg.scenes (mainResult R cfg) p hp
    have hvid : (mainResult R cfg k0).video_id = k0.video_id :=
      (process_shape (R.envMain k0.video_id) (mainArgs cfg k0)).1
    have hkk : k = k0 := by
      rw [← hps, h1, h2, hvid]
    subst hkk
    rw [hps] at hne
    refine ⟨hk0, hsucc, ?_⟩
    simp only [Bool.not_eq_true] at hne
    exact hne

/-- Claim C1 (amended): the intrinsics-repair wave's task list consists
exactly of the scenes whose MAIN-wave result has phase
`removed_missing_intrinsics`; since the main wave runs every scene with
`redownload_attempt = 0` and `process_single_scene` emits that phase
only on remediation attempts, the task list is always empty — in
particular, scenes flagged `removed_missing_intrinsics` by the
download-retry wave are never enrolled. -/
theorem c1_intrinsics_wave_main_only (R : RunEnv) (cfg : RunConfig) :
    scenesNeedingRedownload R cfg =
      cfg.scenes.filter
        (fun k => (mainResult R cfg k).phase == "removed_missing_intrinsics") ∧
    (∀ env a, a.redownload_attempt = 0 →
      (process_single_scene env a).phase ≠ "removed_missing_intrinsics") ∧
    scenesNeedingRedownload R cfg = [] := by
  refine ⟨rfl, fun env a h => (process_shape env a).2.2 h, ?_⟩
  unfold scenesNeedingRedownload
  rw [List.filter_eq_nil_iff]
  intro k _
  have h := (process_shape (R.envMain k.video_id) (mainArgs cfg k)).2.2 rfl
  simpa using h

/-- Claim C1, counterexample to the claim as stated: a run in which the
scene fails its main download (phase `download`), enters the retry
wave, and is flagged `removed_missing_intrinsics` by that earlier wave,
yet the intrinsics-repair wave's task list does not contain it (the
list is built from main-wave results only). -/
theorem c1_counterexample :
    sceneK42 ∈ failedScenes runFlagged cfgOne ∧
    (retryResult runFlagged cfgOne sceneK42).phase = "removed_missing_intrinsics" ∧
    sceneK42 ∉ scenesNeedingRedownload runFlagged cfgOne := by
  refine ⟨by decide, by decide, by decide⟩

/-- Claim C1, witness. -/
theorem c1_witness :
    scenesNeedingRedownload runBothFail cfgOne = [] ∧
    (process_single_scene envNoDownload (mainArgs cfgOne sceneK42)).phase ≠
      "removed_missing_intrinsics" :=
  ⟨(c1_intrinsics_wave_main_only runBothFail cfgOne).2.2,
    (c1_intrinsics_wave_main_only runBothFail cfgOne).2.1 envNoDownload
      (mainArgs cfgOne sceneK42) rfl⟩

/-- Claim C7 (amended): a scene whose main-wave result has phase
`download` and whose retry-wave attempt also fails is absent from disk
once the run completes (its directory is removed by the retry-failure
cleanup and no later wave touches it); however the download-retry wave
is not the only source of permanent deletion: a scene that succeeded
its main wave but fails the forced redownload of the
empty-directory-repair wave is removed as well. -/
theorem c7_failed_retry_removed (R : RunEnv) (cfg : RunConfig) (k : SceneKey)
    (hnd : (cfg.scenes.map SceneKey.video_id).Nodup) (hk : k ∈ cfg.scenes) :
    ((mainResult R cfg k).phase = "download" →
      (retryResult R cfg k).success = false →
      R.removeOKRetryCleanup k = true →
      finalPresence R cfg k = false) ∧
    ((mainResult R cfg k).success = true →
      (mainResult R cfg k).phase ∉ skippedPhases →
      k.split ≠ "" →
      (R.emptyDirsMain k).isEmpty = false →
      (emptyResult R cfg k).success = false →
      R.removeOKEmptyCleanup k = true →
      finalPresence R cfg k = false) := by
  constructor
  · intro hmain hretry hrm
    have hsucc : (mainResult R cfg k).success = false :=
      (process_shape (R.envMain k.video_id) (mainArgs cfg k)).2.1 hmain
    have hkfs : k ∈ failedScenes R cfg := mem_failedScenes R cfg k hnd hk hmain
    have hpf : k.video_id ∈ permanentlyFailed R cfg :=
      mem_permanentlyFailed R cfg k hkfs hretry
    have hnr : k ∉ scenesNeedingRedownload R cfg := by
      unfold scenesNeedingRedownload
      intro hmem
      have h2 := (List.mem_filter.mp hmem).2
      rw [hmain] at h2
      exact absurd h2 (by decide)
    have hnw : k ∉ scenesWithEmptyDirs R cfg := by
      intro hmem
      have h2 := (mem_scenesWithEmptyDirs R cfg k hmem).2.1
      rw [hsucc] at h2
      cases h2
    have hns : k ∉ stillEmpty R cfg := by
      intro hmem
      exact hnw (List.mem_filter.mp hmem).1
    simp only [finalPresence]
    simp [hk, hkfs, hpf, hrm, hnr, hnw, hns]
  · intro hsucc hph hsplit hed hefail hrm2
    have hvid : (mainResult R cfg k).video_id = k.video_id :=
      (process_shape (R.envMain k.video_id) (mainArgs cfg k)).1
    have hss : (k.video_id, k.split) ∈ (mainStats R cfg).successful_scenes := by
      have h := ss_mem_of_wave cfg.scenes (mainResult R cfg) k hk hsucc hph hsplit
      rw [hvid] at h
      exact h
    have hkwe : k ∈ scenesWithEmptyDirs R cfg := by
      unfold scenesWithEmptyDirs
      apply List.mem_filterMap.mpr
      refine ⟨(k.video_id, k.split), hss, ?_⟩
      have he : (R.emptyDirsMain ⟨k.video_id, k.split⟩).isEmpty = false := hed
      rw [he]
      rfl
    have hnss : ¬((k.video_id, k.split) ∈ (emptyStats R cfg).successful_scenes) := by
      intro hmem
      obtain ⟨k2, hk2, hsucc2, h1, h2⟩ :=
        mem_ss_of_wave (scenesWithEmptyDirs R cfg) (emptyResult R cfg) _ hmem
      have hvid2 : (emptyResult R cfg k2).video_id = k2.video_id :=
        (process_shape (R.envEmpty k2.video_id) (emptyArgs cfg k2)).1
      rw [hvid2] at h1
      have hk2k : k2 = k := by
        cases k2
        cases k
        simp_all
      subst hk2k
      rw [hefail] at hsucc2
      cases hsucc2
    have hse : k ∈ stillEmpty R cfg := by
      unfold stillEmpty
      apply List.mem_filter.mpr
      refine ⟨hkwe, ?_⟩
      have hc : (emptyStats R cfg).successful_scenes.contains (k.video_id, k.split) = false := by
        by_contra hcon
        simp only [Bool.not_eq_false] at hcon
        exact hnss (by simpa using hcon)
      rw [hc]
      simp
    simp only [finalPresence]
    simp [hse, hrm2]

/-- Claim C7, counterexample to the uniqueness part of the claim as
stated: a scene that succeeded the main wave (and never entered the
download-retry wave) is permanently deleted after its
empty-directory-repair redownload fails, so the download-retry wave is
not the only wave whose failures trigger permanent deletion. -/
theorem c7_counterexample :
    (mainResult runEmptyFail cfgOneForce sceneK42).success = true ∧
    sceneK42 ∉ failedScenes runEmptyFail cfgOneForce ∧
    (emptyResult runEmptyFail cfgOneForce sceneK42).success = false ∧
    finalPresence runEmptyFail cfgOneForce sceneK42 = false := by
  refine ⟨by decide, by decide, by decide, by decide⟩

/-- Claim C7, witness: a scene failing both downloads is absent at the
end of the run. -/
theorem c7_witness : finalPresence runBothFail cfgOne sceneK42 = false :=
  (c7_failed_retry_removed runBothFail cfgOne sceneK42 (by decide) (by decide)).1
    (by decide) (by decide) rfl

/-- Inserting into a list permutes consing onto it. -/
theorem insertSorted_perm (x : String) (l : List String) :
    List.Perm (insertSorted x l) (x :: l) := by
  induction l with
  | nil => exact List.Perm.refl _
  | cons y ys ih =>
    unfold insertSorted
    split
    · exact List.Perm.refl _
    · exact (List.Perm.cons y ih).trans (List.Perm.swap x y ys)

/-- Sorting permutes the listing. -/
theorem sortNames_perm (l : List String) : List.Perm (sortNames l) l := by
  induction l with
  | nil => exact List.Perm.refl _
  | cons x xs ih =>
    unfold sortNames
    exact (insertSorted_perm _ _).trans (List.Perm.cons x ih)

/-- The slice `[::n]` with positive step keeps exactly the ceiling of
`length / n` elements. -/
theorem everyNth_length {α : Type} (n : Nat) (hn : 0 < n) (l : List α) :
    (everyNth n l).length = (l.length + n - 1) / n := by
  have main : ∀ (fuel : Nat) (l : List α), l.length ≤ fuel →
      (everyNth n l).length = (l.length + n - 1) / n := by
    intro fuel
    induction fuel with
    | zero =>
      intro l hl
      have hnil : l = [] := List.eq_nil_of_length_eq_zero (Nat.le_zero.mp hl)
      subst hnil
      simp [everyNth]
      exact (Nat.div_eq_of_lt (by omega)).symm
    | succ fuel ih =>
      intro l hl
      cases l with
      | nil =>
        simp [everyNth]
        exact (Nat.div_eq_of_lt (by omega)).symm
      | cons x xs =>
        have hd : (xs.drop (n - 1)).length = xs.length - (n - 1) :=
          List.length_drop _ _
        have hih := ih (xs.drop (n - 1)) (by rw [hd]; simp at hl; omega)
        simp only [everyNth, List.length_cons]
        rw [hih, hd]
        rcases Nat.lt_or_ge xs.length (n - 1) with hm | hm
        · have h0 : xs.length - (n - 1) = 0 := by omega
          rw [h0]
          have h1 : (0 + n - 1) / n = 0 := Nat.div_eq_of_lt (by omega)
          have h2 : xs.length + 1 + n - 1 = xs.length + n := by omega
          rw [h1, h2, Nat.add_div_right _ hn, Nat.div_eq_of_lt (by omega)]
        · have h1 : xs.length - (n - 1) + n - 1 = xs.length := by omega
          have h2 : xs.length + 1 + n - 1 = xs.length + n := by omega
          rw [h1, h2, Nat.add_div_right _ hn]
  exact main l.length l (Nat.le_refl _)

/-- The `k`-th kept element of the slice `[::n]` is the element at
index `n * k` of the underlying list. -/
theorem everyNth_getElem {α : Type} (n : Nat) (hn : 0 < n) (l : List α) (k : Nat) :
    (everyNth n l)[k]? = l[n * k]? := by
  have main : ∀ (fuel : Nat) (l : List α) (k : Nat), l.length ≤ fuel →
      (everyNth n l)[k]? = l[n * k]? := by
    intro fuel
    induction fuel with
    | zero =>
      intro l k hl
      have hnil : l = [] := List.eq_nil_of_length_eq_zero (Nat.le_zero.mp hl)
      subst hnil
      simp [everyNth]
    | succ fuel ih =>
      intro l k hl
      cases l with
      | nil => simp [everyNth]
      | cons x xs =>
        simp only [everyNth]
        cases k with
        | zero => simp
        | succ k =>
          rw [List.getElem?_cons_succ]
          rw [ih (xs.drop (n - 1)) k (by simp [List.length_drop]; simp at hl; omega)]
          rw [List.getElem?_drop]
          have hidx : n * (k + 1) = (n - 1 + n * k) + 1 := by
            rw [Nat.mul_succ]
            omega
          rw [hidx, List.getElem?_cons_succ]
  exact main l.length l k (Nat.le_refl _)

/-- The slice commutes with mapping. -/
theorem everyNth_map {α β : Type} (n : Nat) (f : α → β) (l : List α) :
    everyNth n (l.map f) = (everyNth n l).map f := by
  have main : ∀ (fuel : Nat) (l : List α), l.length ≤ fuel →
      everyNth n (l.map f) = (everyNth n l).map f := by
    intro fuel
    induction fuel with
    | zero =>
      intro l hl
      have hnil : l = [] := List.eq_nil_of_length_eq_zero (Nat.le_zero.mp hl)
      subst hnil
      simp [everyNth]
    | succ fuel ih =>
      intro l hl
      cases l with
      | nil => simp [everyNth]
      | cons x xs =>
        simp only [List.map_cons, everyNth]
        congr 1
        rw [← List.map_drop]
        exact ih (xs.drop (n - 1)) (by simp [List.length_drop]; simp at hl; omega)
  exact main l.length l (Nat.le_refl _)

/-- The slice is a sublist of the underlying list. -/
theorem everyNth_sublist {α : Type} (n : Nat) (l : List α) :
    (everyNth n l).Sublist l := by
  have main : ∀ (fuel : Nat) (l : List α), l.length ≤ fuel →
      (everyNth n l).Sublist l := by
    intro fuel
    induction fuel with
    | zero =>
      intro l hl
      have hnil : l = [] := List.eq_nil_of_length_eq_zero (Nat.le_zero.mp hl)
      subst hnil
      simp [everyNth]
    | succ fuel ih =>
      intro l hl
      cases l with
      | nil => simp [everyNth]
      | cons x xs =>
        simp only [everyNth]
        apply List.Sublist.cons₂
        exact (ih (xs.drop (n - 1)) (by simp [List.length_drop]; simp at hl; omega)).trans
          (List.drop_sublist _ _)
  exact main l.length l (Nat.le_refl _)

/-- Filtering a duplicate-free list by membership in a duplicate-free
subcollection keeps exactly that subcollection's number of elements. -/
theorem filter_contains_length {α : Type} [DecidableEq α] (l ks : List α)
    (hl : l.Nodup) (hks : ks.Nodup) (hsub : ∀ x ∈ ks, x ∈ l) :
    (l.filter (fun x => ks.contains x)).length = ks.length := by
  have h1 : (l.filter (fun x => ks.contains x)).Nodup := hl.filter _
  have h2 : ∀ x, x ∈ l.filter (fun x => ks.contains x) ↔ x ∈ ks := by
    intro x
    rw [List.mem_filter]
    constructor
    · rintro ⟨-, h⟩
      simpa using h
    · intro h
      exact ⟨hsub x h, by simpa using h⟩
  have h3 : (l.filter (fun x => ks.contains x)).toFinset = ks.toFinset := by
    ext x
    simp only [List.mem_toFinset]
    exact h2 x
  have h4 := List.toFinset_card_of_nodup h1
  have h5 := List.toFinset_card_of_nodup hks
  rw [h3] at h4
  omega

/-- Claim C6: executing a factor-`n` subsample (`n > 1`) on a directory
listing of distinct file names leaves exactly `ceil(M/n)` files, namely
the files at indices `0, n, 2n, ...` of the name-sorted listing (the
kept slice element `j` is the sorted element at index `n * j`); and for
matching image and intrinsics listings (equal stem sequences after
sorting) the retained index set and the retained stem sequence of the
intrinsics directory are identical to those of the image directory. -/
theorem c6_subsample (n : Nat) (hn : 1 < n) (l limg lintr : List String)
    (hnd : l.Nodup) (stem : String → String)
    (hstem : (sortNames limg).map stem = (sortNames lintr).map stem) :
    (afterSubsample n true l).length = (l.length + n - 1) / n ∧
    (∀ f, f ∈ afterSubsample n true l ↔ f ∈ everyNth n (sortNames l)) ∧
    (∀ j, (everyNth n (sortNames l))[j]? = (sortNames l)[n * j]?) ∧
    retainedIndices n (sortNames limg).length =
      retainedIndices n (sortNames lintr).length ∧
    (everyNth n (sortNames limg)).map stem = (everyNth n (sortNames lintr)).map stem := by
  have hn0 : 0 < n := by omega
  have hperm := sortNames_perm l
  have hsortnd : (sortNames l).Nodup := hperm.nodup_iff.mpr hnd
  have hknd : (filesToKeep n l).Nodup :=
    (everyNth_sublist n (sortNames l)).nodup hsortnd
  have hksub : ∀ x ∈ filesToKeep n l, x ∈ l := by
    intro x hx
    exact hperm.mem_iff.mp ((everyNth_sublist n (sortNames l)).subset hx)
  have hfeq : l.filter (fun f => !(filesToRemove n l).contains f)
      = l.filter (fun f => (filesToKeep n l).contains f) := by
    apply List.filter_congr
    intro x hx
    have hxs : x ∈ sortNames l := hperm.mem_iff.mpr hx
    have hrem : x ∈ filesToRemove n l ↔ ¬(x ∈ filesToKeep n l) := by
      unfold filesToRemove
      rw [List.mem_filter]
      simp [hxs]
    by_cases hk : x ∈ filesToKeep n l
    · have h1 : (filesToKeep n l).contains x = true := by simpa using hk
      have h2 : (filesToRemove n l).contains x = false := by
        have h3 : ¬(x ∈ filesToRemove n l) := fun hmem => (hrem.mp hmem) hk
        simpa using h3
      rw [h1, h2]
      rfl
    · have h1 : (filesToKeep n l).contains x = false := by simpa using hk
      have h2 : (filesToRemove n l).contains x = true := by
        have h3 : x ∈ filesToRemove n l := hrem.mpr hk
        simpa using h3
      rw [h1, h2]
      rfl
  have hafter : afterSubsample n true l = l.filter (fun f => (filesToKeep n l).contains f) := by
    unfold afterSubsample
    rw [if_pos rfl]
    exact hfeq
  refine ⟨?_, ?_, fun j => everyNth_getElem n hn0 (sortNames l) j, ?_, ?_⟩
  · rw [hafter, filter_contains_length l (filesToKeep n l) hnd hknd hksub]
    unfold filesToKeep
    rw [everyNth_length n hn0, hperm.length_eq]
  · intro f
    rw [hafter, List.mem_filter]
    constructor
    · rintro ⟨-, h⟩
      have : f ∈ filesToKeep n l := by simpa using h
      simpa [filesToKeep] using this
    · intro h
      have hfk : f ∈ filesToKeep n l := by simpa [filesToKeep] using h
      exact ⟨hksub f hfk, by simpa using hfk⟩
  · have hlen2 : (sortNames limg).length = (sortNames lintr).length := by
      have h := congrArg List.length hstem
      simpa using h
    rw [hlen2]
  · rw [← everyNth_map, ← everyNth_map, hstem]

/-- Claim C6, witness: subsampling five distinct files with factor 3
leaves two files. -/
theorem c6_witness :
    (afterSubsample 3 true ["d", "b", "a", "c", "e"]).length = 2 := by
  have h := (c6_subsample 3 (by omega) ["d", "b", "a", "c", "e"] [] []
    (by decide) id rfl).1
  exact h.trans (by rfl)

/-- Dropping the non-kept directories does not change whether a kept
directory exists. -/
theorem any_filter_keep (ds : List (String × List SFile)) (nm : String)
    (hnm : nm ∈ keepDirs) :
    (ds.filter (fun d => keepDirs.contains d.1)).any (fun d => d.1 == nm)
      = ds.any (fun d => d.1 == nm) := by
  induction ds with
  | nil => rfl
  | cons d ds ih =>
    rw [List.filter_cons]
    by_cases hd : d.1 = nm
    · have hc : keepDirs.contains d.1 = true := by
        rw [hd]
        simpa using hnm
      rw [if_pos hc]
      simp only [List.any_cons, ih]
    · have hd' : (d.1 == nm) = false := by simpa using hd
      by_cases hc : keepDirs.contains d.1 = true
      · rw [if_pos hc]
        simp only [List.any_cons, ih]
      · rw [if_neg (by simpa using hc)]
        simp only [List.any_cons, hd', ih, Bool.false_or]

/-- Claim C9: with the execute flag off (dry run), both
`clean_scene_directories` and `subsample_scene_files` leave the scene
tree exactly as it was — no file and no directory is deleted — while
returning the same boolean result the execute-mode run would return on
that tree. -/
theorem c9_dry_run_frame (fs : SceneFS) (n : Nat) :
    clean_scene_directories fs false = (fs, (clean_scene_directories fs true).2) ∧
    subsample_scene_files fs n false = (fs, (subsample_scene_files fs n true).2) := by
  constructor
  · have hmiss : keepDirs.filter
          (fun nm => !(fsDirExists ⟨fs.dirs.filter (fun d => keepDirs.contains d.1)⟩ nm))
        = keepDirs.filter (fun nm => !(fsDirExists fs nm)) :=
      List.filter_congr (fun nm hnm => by
        simp only [fsDirExists]
        rw [any_filter_keep fs.dirs nm hnm])
    have hdry : clean_scene_directories fs false =
        (if !(keepDirs.filter (fun nm => !(fsDirExists fs nm))).isEmpty then (fs, false)
         else (fs, true)) := rfl
    have hstep : clean_scene_directories fs true =
        (if !(keepDirs.filter (fun nm =>
              !(fsDirExists ⟨fs.dirs.filter (fun d => keepDirs.contains d.1)⟩ nm))).isEmpty
          then ((⟨fs.dirs.filter (fun d => keepDirs.contains d.1)⟩ : SceneFS), false)
          else (⟨(fs.dirs.filter (fun d => keepDirs.contains d.1)).map (fun d =>
              if keepDirs.contains d.1 then
                (d.1, d.2.filter (fun f =>
                  commonStem ⟨fs.dirs.filter (fun d => keepDirs.contains d.1)⟩ f.stem))
              else d)⟩, true)) := rfl
    rw [hdry, hstep, hmiss]
    by_cases hm : (keepDirs.filter (fun nm => !(fsDirExists fs nm))).isEmpty = true
    · simp [hm]
    · simp only [Bool.not_eq_true] at hm
      simp [hm]
  · have hsub : ∀ (ext : String) (files : List SFile),
        subsampleFSDir n false ext files = files := fun _ _ => rfl
    have h1 : subsample_scene_files fs n false = (fs, true) := by
      unfold subsample_scene_files
      simp only [hsub]
      simp [Prod.mk.eta, ite_self]
    rw [h1]
    rfl
